import Mathlib

/-!
Verification development for the MediaPipe pose-tracking frontend.

The source under scrutiny is the 3D `PoseTracker` component: MediaPipe
`onResults` callback feeding a three.js scene of 33 joint spheres and one
cylinder per entry of `POSE_CONNECTIONS`. The embedding below models the
render-state update performed by `onResults` and the helper `updateBone`,
with real-number coordinates standing for JavaScript floats. Vector and
quaternion operations mirror the three.js implementations the code calls
(`Vector3.subVectors`, `Vector3.length`, `Vector3.multiplyScalar`,
`Vector3.normalize`, `Quaternion.setFromUnitVectors`,
`Quaternion.normalize`, `Vector3.applyQuaternion`).
-/

/-- A three.js `Vector3` with exact real coordinates. -/
@[ext] structure V3 where
  x : ℝ
  y : ℝ
  z : ℝ

/-- three.js `Vector3.subVectors(a, b)`: componentwise `a - b`. -/
def V3.subVectors (a b : V3) : V3 :=
  ⟨a.x - b.x, a.y - b.y, a.z - b.z⟩

/-- three.js `Vector3.add`: componentwise sum. -/
def V3.add (a b : V3) : V3 :=
  ⟨a.x + b.x, a.y + b.y, a.z + b.z⟩

/-- three.js `Vector3.multiplyScalar`. -/
def V3.multiplyScalar (v : V3) (s : ℝ) : V3 :=
  ⟨v.x * s, v.y * s, v.z * s⟩

/-- three.js `Vector3.dot`. -/
def V3.dot (a b : V3) : ℝ :=
  a.x * b.x + a.y * b.y + a.z * b.z

/-- three.js `Vector3.length`: Euclidean norm. -/
noncomputable def V3.length (v : V3) : ℝ :=
  Real.sqrt (v.x ^ 2 + v.y ^ 2 + v.z ^ 2)

/-- three.js `Vector3.normalize`: `divideScalar(length() || 1)`. The
JavaScript `|| 1` guard means a zero-length vector is divided by 1, hence
returned unchanged, never producing a division by zero. -/
noncomputable def V3.normalize (v : V3) : V3 :=
  let l := v.length
  if l = 0 then v else ⟨v.x / l, v.y / l, v.z / l⟩

/-- A three.js `Quaternion` (x, y, z, w). -/
structure Quat where
  x : ℝ
  y : ℝ
  z : ℝ
  w : ℝ

/-- three.js `Quaternion.normalize`: divide by the 4-norm, or set the
identity quaternion when the norm is zero. -/
noncomputable def Quat.normalize (q : Quat) : Quat :=
  let l := Real.sqrt (q.x ^ 2 + q.y ^ 2 + q.z ^ 2 + q.w ^ 2)
  if l = 0 then ⟨0, 0, 0, 1⟩ else ⟨q.x / l, q.y / l, q.z / l, q.w / l⟩

/-- JavaScript `Number.EPSILON`, the threshold used by three.js
`Quaternion.setFromUnitVectors` to detect the antiparallel case. -/
noncomputable def EPSILON : ℝ := 1 / 2 ^ 52

/-- three.js `Quaternion.setFromUnitVectors(vFrom, vTo)`: shortest-arc
rotation mapping `vFrom` to `vTo`, with a fallback perpendicular axis when
the vectors are (numerically) opposite, followed by quaternion
normalization. -/
noncomputable def Quat.setFromUnitVectors (vFrom vTo : V3) : Quat :=
  let r := vFrom.dot vTo + 1
  if r < EPSILON then
    (if |vFrom.x| > |vFrom.z| then
      Quat.normalize ⟨-vFrom.y, vFrom.x, 0, 0⟩
    else
      Quat.normalize ⟨0, -vFrom.z, vFrom.y, 0⟩)
  else
    Quat.normalize ⟨vFrom.y * vTo.z - vFrom.z * vTo.y,
                    vFrom.z * vTo.x - vFrom.x * vTo.z,
                    vFrom.x * vTo.y - vFrom.y * vTo.x, r⟩

/-- State of one three.js mesh as used by the component: position, scale,
orientation, visibility. Joint spheres only ever have their position and
visibility updated; bone cylinders additionally get `scale.y` and the
quaternion. -/
structure Mesh where
  position : V3
  scale : V3
  quaternion : Quat
  visible : Bool

/-- The coordinate-space conversion applied to every landmark
(`mesh.position.x = -landmark.x` and likewise for y and z, and the
construction of `point1` / `point2` for bones): every axis is negated. -/
def transformPoint (p : V3) : V3 :=
  ⟨-p.x, -p.y, -p.z⟩

/-- MediaPipe `POSE_CONNECTIONS`: the fixed list of joint-index pairs
connected by bone cylinders. -/
def POSE_CONNECTIONS : List (ℕ × ℕ) :=
  [(0, 1), (1, 2), (2, 3), (3, 7), (0, 4), (4, 5), (5, 6), (6, 8),
   (9, 10), (11, 12), (11, 13), (13, 15), (15, 17), (15, 19), (15, 21),
   (17, 19), (12, 14), (14, 16), (16, 18), (16, 20), (16, 22), (18, 20),
   (11, 23), (12, 24), (23, 24), (23, 25), (24, 26), (25, 27), (26, 28),
   (27, 29), (28, 30), (29, 31), (30, 32), (27, 31), (28, 32)]

/-- Number of bone cylinders created by `createBones`. -/
def numConnections : ℕ := POSE_CONNECTIONS.length

/-- The render state owned by the component: the 33 joint spheres and the
bone cylinders, in creation order. -/
structure SceneState where
  joints : Fin 33 → Mesh
  bones : Fin numConnections → Mesh

/-- The destructuring `const [startIdx, endIdx] = connection` for the bone
at index `j`: the pair of endpoint joint indices. -/
def connectionAt (j : Fin numConnections) : ℕ × ℕ :=
  POSE_CONNECTIONS.get (Fin.cast rfl j)

/-- A detector frame: either no detection (`poseWorldLandmarks` absent) or
33 optional landmark slots in detector space. -/
def Frame : Type := Option (Fin 33 → Option V3)

/-- JavaScript array indexing `poseWorldLandmarks[idx]`: `undefined`
(modelled `none`) outside bounds or at an absent slot. -/
def getLm (lms : Fin 33 → Option V3) (n : ℕ) : Option V3 :=
  if h : n < 33 then lms ⟨n, h⟩ else none

/-- The `updateBone` helper: derives the cylinder transform between two
render-space points. Mirrors the source statement by statement, including
the in-place mutation of `direction` (halved by `multiplyScalar(0.5)`
before being normalized). -/
noncomputable def updateBone (bone : Mesh) (point1 point2 : V3) : Mesh :=
  let direction := V3.subVectors point2 point1
  let length := direction.length
  let direction1 := direction.multiplyScalar 0.5
  { bone with
    position := point1.add direction1
    scale := { bone.scale with y := length }
    quaternion := Quat.setFromUnitVectors ⟨0, 1, 0⟩ direction1.normalize
    visible := true }

/-- The `onResults` callback as a state transformer on the scene. With no
detection every mesh is hidden. Otherwise each present landmark updates its
joint sphere (transformed position, shown), absent slots leave the sphere
untouched; each connection whose two endpoint landmarks are present gets
its cylinder recomputed by `updateBone`, otherwise the cylinder is left
untouched. -/
noncomputable def onResults (results : Frame) (s : SceneState) : SceneState :=
  match results with
  | none =>
      { joints := fun i => { s.joints i with visible := false }
        bones := fun j => { s.bones j with visible := false } }
  | some lms =>
      { joints := fun i =>
          match lms i with
          | some lm => { s.joints i with position := transformPoint lm, visible := true }
          | none => s.joints i
        bones := fun j =>
          let c := connectionAt j
          match getLm lms c.1, getLm lms c.2 with
          | some startLm, some endLm =>
              updateBone (s.bones j) (transformPoint startLm) (transformPoint endLm)
          | some _, none => s.bones j
          | none, some _ => s.bones j
          | none, none => s.bones j }

/-- Page-load state of every mesh: spheres and cylinders are created
invisible, at the scene origin, with unit scale and identity orientation. -/
def mesh0 : Mesh :=
  ⟨⟨0, 0, 0⟩, ⟨1, 1, 1⟩, ⟨0, 0, 0, 1⟩, false⟩

/-- The scene right after initialization. -/
def sceneInit : SceneState :=
  ⟨fun _ => mesh0, fun _ => mesh0⟩

/-- C2: the coordinate transform negates every axis and applying it twice
is the identity on every point. -/
theorem C2_transform_involution (p : V3) :
    transformPoint p = ⟨-p.x, -p.y, -p.z⟩ ∧
    transformPoint (transformPoint p) = p := by
  refine ⟨rfl, ?_⟩
  show V3.mk (- - p.x) (- - p.y) (- - p.z) = p
  simp

/-- C5: on a frame with no detection, every joint sphere and every bone
cylinder is invisible after the update. -/
theorem C5_no_detection_all_hidden (s : SceneState) :
    (∀ i : Fin 33, ((onResults none s).joints i).visible = false) ∧
    (∀ j : Fin numConnections, ((onResults none s).bones j).visible = false) :=
  ⟨fun _ => rfl, fun _ => rfl⟩

/-- C10: the no-detection branch only clears visibility; position, scale
and orientation of every joint and bone keep the values they had before
the update. -/
theorem C10_no_detection_frame_effect (s : SceneState) :
    (∀ i : Fin 33, (onResults none s).joints i = { s.joints i with visible := false }) ∧
    (∀ j : Fin numConnections, (onResults none s).bones j = { s.bones j with visible := false }) :=
  ⟨fun _ => rfl, fun _ => rfl⟩

/-- C4: on coincident endpoints `updateBone` yields a zero along-axis
scale (the cylinder degenerates to an invisible point), keeps the position
at the common endpoint, and sets the identity quaternion: the guarded
`normalize` (`length() || 1`) and the guarded quaternion normalization mean
no division by zero occurs on this input. -/
theorem C4_degenerate_bone (bone : Mesh) (a : V3) :
    (updateBone bone a a).scale.y = 0 ∧
    (updateBone bone a a).position = a ∧
    (updateBone bone a a).quaternion = ⟨0, 0, 0, 1⟩ ∧
    (updateBone bone a a).visible = true := by
  have hd : V3.subVectors a a = ⟨0, 0, 0⟩ := by simp [V3.subVectors]
  refine ⟨?_, ?_, ?_, rfl⟩
  · simp [updateBone, hd, V3.length]
  · simp [updateBone, hd, V3.multiplyScalar, V3.add]
  · simp only [updateBone, hd]
    norm_num [V3.multiplyScalar, V3.normalize, V3.length, Quat.setFromUnitVectors,
      V3.dot, EPSILON, Quat.normalize, Real.sqrt_one]

/-- C7: the bone solver is symmetric in its two endpoints as far as
placement (midpoint) and along-axis scale (length) are concerned. -/
theorem C7_solver_symmetric (bone : Mesh) (a b : V3) (h : a ≠ b) :
    (updateBone bone a b).position = (updateBone bone b a).position ∧
    (updateBone bone a b).scale.y = (updateBone bone b a).scale.y := by
  constructor
  · show V3.add a ((V3.subVectors b a).multiplyScalar 0.5)
        = V3.add b ((V3.subVectors a b).multiplyScalar 0.5)
    simp only [V3.add, V3.subVectors, V3.multiplyScalar, V3.mk.injEq]
    refine ⟨by ring, by ring, by ring⟩
  · show (V3.subVectors b a).length = (V3.subVectors a b).length
    simp only [V3.length, V3.subVectors]
    congr 1
    ring

/-- C7 witness: symmetry instantiated at the distinct endpoints
`(0,0,0)` and `(1,0,0)`. -/
theorem C7_solver_symmetric_witness :
    (V3.mk 0 0 0 ≠ V3.mk 1 0 0) ∧
    ((updateBone mesh0 ⟨0, 0, 0⟩ ⟨1, 0, 0⟩).position
        = (updateBone mesh0 ⟨1, 0, 0⟩ ⟨0, 0, 0⟩).position ∧
     (updateBone mesh0 ⟨0, 0, 0⟩ ⟨1, 0, 0⟩).scale.y
        = (updateBone mesh0 ⟨1, 0, 0⟩ ⟨0, 0, 0⟩).scale.y) := by
  have h : V3.mk 0 0 0 ≠ V3.mk 1 0 0 := by
    intro hc
    have hx := congrArg V3.x hc
    norm_num at hx
  exact ⟨h, C7_solver_symmetric mesh0 ⟨0, 0, 0⟩ ⟨1, 0, 0⟩ h⟩

/-- The `getScaleForLandmark` helper: sphere radius per landmark index. -/
def getScaleForLandmark (index : ℕ) : ℚ :=
  if (0 ≤ index ∧ index ≤ 10) ∨ (17 ≤ index ∧ index ≤ 22) then 0.02 else 0.05

/-- The `getColorForLandmark` helper: sphere color per landmark index. -/
def getColorForLandmark (index : ℕ) : ℕ :=
  if (0 ≤ index ∧ index ≤ 10) ∨ (17 ≤ index ∧ index ≤ 22) then 0xffff00 else 0x00ff00

/-- C8: every joint index below 33 falls in exactly one of the two fixed
classes, determined by the index alone: indices 0 to 10 and 17 to 22 get
the small radius 0.02 with yellow, all others the radius 0.05 with
green. -/
theorem C8_topology_classes (i : ℕ) (h : i < 33) :
    ((getScaleForLandmark i = 0.02 ∧ getColorForLandmark i = 0xffff00) ↔
      (i ≤ 10 ∨ (17 ≤ i ∧ i ≤ 22))) ∧
    ((getScaleForLandmark i = 0.05 ∧ getColorForLandmark i = 0x00ff00) ↔
      ¬(i ≤ 10 ∨ (17 ≤ i ∧ i ≤ 22))) := by
  by_cases hc : i ≤ 10 ∨ (17 ≤ i ∧ i ≤ 22)
  · have hc0 : (0 ≤ i ∧ i ≤ 10) ∨ (17 ≤ i ∧ i ≤ 22) := by
      rcases hc with hc | hc
      · exact Or.inl ⟨Nat.zero_le i, hc⟩
      · exact Or.inr hc
    simp only [getScaleForLandmark, getColorForLandmark, if_pos hc0]
    norm_num [hc]
  · have hc0 : ¬((0 ≤ i ∧ i ≤ 10) ∨ (17 ≤ i ∧ i ≤ 22)) := by
      intro hc1
      rcases hc1 with hc1 | hc1
      · exact hc (Or.inl hc1.2)
      · exact hc (Or.inr hc1)
    simp only [getScaleForLandmark, getColorForLandmark, if_neg hc0]
    norm_num [hc]

/-- C8 witness: the class assignment instantiated at index 3 (a face
landmark, hence fine class). -/
theorem C8_topology_classes_witness :
    (3 : ℕ) < 33 ∧
    (((getScaleForLandmark 3 = 0.02 ∧ getColorForLandmark 3 = 0xffff00) ↔
        ((3 : ℕ) ≤ 10 ∨ (17 ≤ (3 : ℕ) ∧ (3 : ℕ) ≤ 22))) ∧
     ((getScaleForLandmark 3 = 0.05 ∧ getColorForLandmark 3 = 0x00ff00) ↔
        ¬((3 : ℕ) ≤ 10 ∨ (17 ≤ (3 : ℕ) ∧ (3 : ℕ) ≤ 22)))) :=
  ⟨by norm_num, C8_topology_classes 3 (by norm_num)⟩

/-- Frame with all 33 landmarks present at the detector-space origin. -/
noncomputable def frameFull : Fin 33 → Option V3 := fun _ => some ⟨0, 0, 0⟩

/-- Frame identical to `frameFull` except landmark 0 is absent. -/
noncomputable def frameDrop0 : Fin 33 → Option V3 :=
  fun i => if i.val = 0 then none else some ⟨0, 0, 0⟩

/-- C1 counterexample: after a full frame makes bone 0 (connection 0-1)
visible, a frame lacking landmark 0 but containing landmark 1 leaves bone
0 visible, although exactly one of its endpoint landmarks is absent in
that frame: the claimed equivalence between bone visibility and endpoint
presence fails. -/
theorem C1_bone_visibility_counterexample :
    (getLm frameDrop0 0).isNone = true ∧
    (getLm frameDrop0 1).isSome = true ∧
    ((onResults (some frameDrop0) (onResults (some frameFull) sceneInit)).bones
        ⟨0, by decide⟩).visible = true :=
  ⟨rfl, rfl, rfl⟩

/-- C1 as amended: a bone is visible after the update exactly when both of
its endpoint landmarks are present in the ingested frame, or the bone was
already visible before the update; a bone with an absent endpoint is left
untouched, not hidden. -/
theorem C1_bone_visibility_amended (lms : Fin 33 → Option V3) (s : SceneState)
    (j : Fin numConnections) :
    ((onResults (some lms) s).bones j).visible =
      (((getLm lms (connectionAt j).1).isSome &&
        (getLm lms (connectionAt j).2).isSome) ||
        (s.bones j).visible) := by
  cases h1 : getLm lms (connectionAt j).1 <;>
    cases h2 : getLm lms (connectionAt j).2 <;>
      simp [onResults, updateBone, h1, h2]

/-- Scalar model separating finite JavaScript numbers from the non-finite
values (NaN and the infinities, collapsed into one marker — enough to
track propagation, since the JavaScript negation of a non-finite value is
again non-finite). -/
inductive FP where
  | fin : ℚ → FP
  | nonfinite : FP
deriving DecidableEq

/-- JavaScript unary minus on the non-finite-aware scalar model. -/
def FP.neg : FP → FP
  | FP.fin q => FP.fin (-q)
  | FP.nonfinite => FP.nonfinite

/-- A landmark record in the non-finite-aware scalar model. -/
structure FV3 where
  x : FP
  y : FP
  z : FP
deriving DecidableEq

/-- The state of a joint sphere that the joint-update loop touches in the
non-finite-aware model. -/
structure FJoint where
  position : FV3
  visible : Bool
deriving DecidableEq

/-- The joint-update phase of `onResults` (the `forEach` over
`poseWorldLandmarks`) re-embedded over the non-finite-aware scalar model:
every present landmark has its coordinates negated and written to the
sphere, which is shown; no test of the coordinate values occurs anywhere
on this path. -/
def updateJointsFP (lms : Fin 33 → Option FV3) (joints : Fin 33 → FJoint) :
    Fin 33 → FJoint :=
  fun i =>
    match lms i with
    | some lm => { joints i with position := ⟨lm.x.neg, lm.y.neg, lm.z.neg⟩, visible := true }
    | none => joints i

/-- A frame whose landmark 0 carries a non-finite x coordinate; all other
slots are absent. -/
def fframeNaN : Fin 33 → Option FV3 :=
  fun i => if i.val = 0 then some ⟨FP.nonfinite, FP.fin 0, FP.fin 0⟩ else none

/-- All joint spheres hidden at the origin. -/
def fjointsInit : Fin 33 → FJoint :=
  fun _ => ⟨⟨FP.fin 0, FP.fin 0, FP.fin 0⟩, false⟩

/-- C6 counterexample: ingesting a frame whose landmark 0 has a non-finite
x coordinate leaves joint 0 Shown with the non-finite value stored in its
position — the joint is not marked unknown and the non-finite value is
propagated into the renderer state. -/
theorem C6_nonfinite_counterexample :
    ((updateJointsFP fframeNaN fjointsInit) 0).visible = true ∧
    ((updateJointsFP fframeNaN fjointsInit) 0).position.x = FP.nonfinite := by
  exact ⟨rfl, rfl⟩

/-- C6 as amended: ingestion performs no finiteness validation; a present
landmark with a non-finite coordinate is processed like any other, so the
non-finite value (negated, hence still non-finite) is written into the
joint position and the joint is marked Shown. -/
theorem C6_nonfinite_amended (lms : Fin 33 → Option FV3)
    (joints : Fin 33 → FJoint) (i : Fin 33) (lm : FV3)
    (hp : lms i = some lm) (hx : lm.x = FP.nonfinite) :
    ((updateJointsFP lms joints) i).position.x = FP.nonfinite ∧
    ((updateJointsFP lms joints) i).visible = true := by
  simp [updateJointsFP, hp, hx, FP.neg]

/-- C6 witness: the amended statement instantiated on the concrete frame
with a non-finite landmark 0. -/
theorem C6_nonfinite_amended_witness :
    (fframeNaN 0 = some ⟨FP.nonfinite, FP.fin 0, FP.fin 0⟩) ∧
    ((FV3.mk FP.nonfinite (FP.fin 0) (FP.fin 0)).x = FP.nonfinite) ∧
    (((updateJointsFP fframeNaN fjointsInit) 0).position.x = FP.nonfinite ∧
     ((updateJointsFP fframeNaN fjointsInit) 0).visible = true) :=
  ⟨rfl, rfl, C6_nonfinite_amended fframeNaN fjointsInit 0
    ⟨FP.nonfinite, FP.fin 0, FP.fin 0⟩ rfl rfl⟩

